import Mathlib

/-!
Verification development for the py3lm call-marshaling bridge (src/src/module.cpp).

This file is a shallow embedding of the marshaling core of the Python 3.12
language module: the per-type value marshaler (the ValueFromObject and
CreatePyObject specializations), the inbound dispatcher (InternalCall), the
outbound dispatcher (ExternalCall with its push/readback helpers), the call
argument scope destructor, and the function identity cache
(GetOrCreateFunctionObject / GetOrCreateFunctionValue).

Modelling conventions:
- The embedding fixes the POSIX build configuration (the PY3LM_PLATFORM_LINUX
  branches of the source).
- Python exceptions are modelled as a single mutable error slot
  (`ErrSlot`), matching CPython's thread-wide error indicator; setting an
  error overwrites whatever was there, exactly as PyErr_SetString does.
- Floating point payloads are modelled as opaque tokens (`Nat`): no claim
  depends on float arithmetic, only on which values flow where.
- Machine integers are modelled as mathematical integers with the explicit
  range checks the code and the CPython conversion functions perform.
- CPython API semantics (PyLong_AsLong and friends, PyFloat_Check,
  PyTuple_CheckExact, PyFunction_Check, PyCFunction_New) are embedded per
  their documented behavior on a 64-bit POSIX target.
- Reading a call-scope temporary through a pointer of the wrong type is
  undefined behavior in the source; the embedding represents such a read as
  the distinguished value `PyObj.reinterp`, recording the type it was read
  as and the cell it actually hit.
-/

namespace Py3

/-- The closed tag set of marshalable kinds (plugify ValueType, restricted to
the tags module.cpp dispatches on). -/
inductive ValueType
  | void | bool | char8 | char16
  | int8 | int16 | int32 | int64
  | uint8 | uint16 | uint32 | uint64
  | pointer | float | double | function | string
  | arrayBool | arrayChar8 | arrayChar16
  | arrayInt8 | arrayInt16 | arrayInt32 | arrayInt64
  | arrayUInt8 | arrayUInt16 | arrayUInt32 | arrayUInt64
  | arrayPointer | arrayFloat | arrayDouble | arrayString
  | vector2 | vector3 | vector4 | matrix4x4
deriving DecidableEq, Repr

/-- C++ types that call-scope temporaries are allocated and destroyed as.
Used to state what `ArgsScope::~ArgsScope` deletes each tagged pointer as. -/
inductive CppType
  | tbool | tchar | tchar16
  | tint8 | tint16 | tint32 | tint64
  | tuint8 | tuint16 | tuint32 | tuint64
  | tuintptr | tfloat | tdouble | tstring
  | vecBool | vecChar8 | vecChar16
  | vecInt8 | vecInt16 | vecInt32 | vecInt64
  | vecUInt8 | vecUInt16 | vecUInt32 | vecUInt64
  | vecUIntptr | vecFloat | vecDouble | vecString
  | tvector2 | tvector3 | tvector4 | tmatrix4x4
deriving DecidableEq, Repr

/-- Python exception classes that module.cpp raises or observes. -/
inductive PyErrKind
  | typeError | valueError | overflowError | unicodeEncodeError | runtimeError
deriving DecidableEq, Repr

/-- Exception messages used by module.cpp (an enumeration, to keep the
embedding free of string handling). -/
inductive Msg
  | notBoolean | notInteger | notString | notFloat | notList
  | notFunction | notVector2 | notVector3 | notVector4 | notMatrix
  | elementsShape | intTooLarge
deriving DecidableEq, Repr

/-- A raised Python exception: class plus optional message (PyErr_SetNone
sets no message). -/
structure PyErr where
  kind : PyErrKind
  msg : Option Msg
deriving DecidableEq, Repr

/-- The CPython thread-wide error indicator: `none` when no exception is
set. -/
abbrev ErrSlot := Option PyErr

/-- PyErr_SetString / PyErr_SetNone: unconditionally replaces the current
error indicator. -/
def pyErrSet (k : PyErrKind) (m : Option Msg) (_ : ErrSlot) : ErrSlot :=
  some ⟨k, m⟩

/-- Native in-memory values: the representations module.cpp reads from and
writes into native slots and heap temporaries. Float payloads are opaque
tokens. -/
inductive NV
  | b (x : Bool)
  | i (n : Int)
  | f (v : Nat)
  | p (a : Nat)
  | s (cs : List Nat)
  | arr (vs : List NV)
  | v2 (x y : Nat)
  | v3 (x y z : Nat)
  | v4 (x y z w : Nat)
  | mat (m : List Nat)

/-- Python objects, as far as module.cpp distinguishes them. `pyfunction` is
an object passing PyFunction_Check; `pycfunction` is a builtin function
object created by PyCFunction_New (PyFunction_Check is false for it).
`reinterp` stands for a value produced by reading memory through a pointer
of the wrong type (undefined behavior in the source): it records the type
the read assumed and the typed cell the read actually hit. -/
inductive PyObj
  | pynone
  | pybool (b : Bool)
  | pyint (n : Int)
  | pyfloat (v : Nat)
  | pystr (cs : List Nat)
  | pytuple (xs : List PyObj)
  | pylist (xs : List PyObj)
  | pyvec2 (x y : Nat)
  | pyvec3 (x y z : Nat)
  | pyvec4 (x y z w : Nat)
  | pymat (rows : List (List Nat))
  | pyfunction (id : Nat)
  | pycfunction (id : Nat)
  | reinterp (readAs : ValueType) (tag : ValueType) (v : NV)

/-- ValueFromObject for bool: PyBool_Check else TypeError. -/
def valueFromObjectBool (o : PyObj) (e : ErrSlot) : Option Bool × ErrSlot :=
  match o with
  | .pybool b => (some b, e)
  | _ => (none, pyErrSet .typeError (some .notBoolean) e)

/-- ValueFromObject for char: length 0 maps to 0; a length-1 string whose
first UTF-8 byte is ASCII maps to that byte; otherwise the code sets
ValueError and then falls through to `PyErr_SetString(TypeError, "Not
string")`, which overwrites it — the fall-through is kept verbatim here. -/
def valueFromObjectChar8 (o : PyObj) (e : ErrSlot) : Option Nat × ErrSlot :=
  match o with
  | .pystr [] => (some 0, e)
  | .pystr [c] =>
      if c < 0x80 then (some c, e)
      else (none, pyErrSet .typeError (some .notString) (pyErrSet .valueError none e))
  | .pystr _ => (none, pyErrSet .typeError (some .notString) (pyErrSet .valueError none e))
  | _ => (none, pyErrSet .typeError (some .notString) e)

/-- ValueFromObject for char16_t: length 0 maps to 0; a length-1 BMP
non-surrogate code point decodes via mbrtoc16 in 1..3 bytes and is accepted;
an astral code point makes mbrtoc16 return 4 (not in 1..3), a lone surrogate
makes PyUnicode_AsUTF8AndSize fail first — in both cases the code sets
ValueError and then falls through to the final TypeError, which overwrites
it. -/
def valueFromObjectChar16 (o : PyObj) (e : ErrSlot) : Option Nat × ErrSlot :=
  match o with
  | .pystr [] => (some 0, e)
  | .pystr [c] =>
      if 0xD800 ≤ c ∧ c ≤ 0xDFFF then
        (none, pyErrSet .typeError (some .notString)
          (pyErrSet .valueError none (pyErrSet .unicodeEncodeError none e)))
      else if c < 0x10000 then (some c, e)
      else (none, pyErrSet .typeError (some .notString) (pyErrSet .valueError none e))
  | .pystr _ => (none, pyErrSet .typeError (some .notString) (pyErrSet .valueError none e))
  | _ => (none, pyErrSet .typeError (some .notString) e)

/-- PyLong_AsLong on a 64-bit POSIX target: in-range values pass through,
out-of-range values return -1 with OverflowError set. -/
def pyLongAsLong (n : Int) (e : ErrSlot) : Int × ErrSlot :=
  if -(2 ^ 63) ≤ n ∧ n < 2 ^ 63 then (n, e)
  else (-1, pyErrSet .overflowError (some .intTooLarge) e)

/-- PyLong_AsLongLong: identical range on the modelled target. -/
def pyLongAsLongLong (n : Int) (e : ErrSlot) : Int × ErrSlot :=
  pyLongAsLong n e

/-- PyLong_AsUnsignedLong on a 64-bit POSIX target. -/
def pyLongAsUnsignedLong (n : Int) (e : ErrSlot) : Int × ErrSlot :=
  if 0 ≤ n ∧ n < 2 ^ 64 then (n, e)
  else (2 ^ 64 - 1, pyErrSet .overflowError (some .intTooLarge) e)

/-- PyLong_AsUnsignedLongLong: identical range on the modelled target. -/
def pyLongAsUnsignedLongLong (n : Int) (e : ErrSlot) : Int × ErrSlot :=
  pyLongAsUnsignedLong n e

/-- ValueFromNumberObject: PyLong_Check, then ConvertFunc, then the
[min,max] check of the target width. On the overflow path the code sets
OverflowError (PyErr_SetNone) and then falls through to the unconditional
`PyErr_SetString(TypeError, "Not integer")`, which overwrites it; the
fall-through is kept verbatim here. -/
def valueFromNumberObject (lo hi : Int) (convert : Int → ErrSlot → Int × ErrSlot)
    (o : PyObj) (e : ErrSlot) : Option Int × ErrSlot :=
  match o with
  | .pyint n =>
      match convert n e with
      | (castResult, e1) =>
          if e1.isNone then
            if lo ≤ castResult ∧ castResult ≤ hi then (some castResult, e1)
            else (none, pyErrSet .typeError (some .notInteger) (pyErrSet .overflowError none e1))
          else (none, pyErrSet .typeError (some .notInteger) e1)
  | _ => (none, pyErrSet .typeError (some .notInteger) e)

/-- ValueFromObject for int8_t. -/
def valueFromObjectInt8 (o : PyObj) (e : ErrSlot) : Option Int × ErrSlot :=
  valueFromNumberObject (-128) 127 pyLongAsLong o e

/-- ValueFromObject for int16_t. -/
def valueFromObjectInt16 (o : PyObj) (e : ErrSlot) : Option Int × ErrSlot :=
  valueFromNumberObject (-32768) 32767 pyLongAsLong o e

/-- ValueFromObject for int32_t. -/
def valueFromObjectInt32 (o : PyObj) (e : ErrSlot) : Option Int × ErrSlot :=
  valueFromNumberObject (-(2 ^ 31)) (2 ^ 31 - 1) pyLongAsLong o e

/-- ValueFromObject for int64_t. -/
def valueFromObjectInt64 (o : PyObj) (e : ErrSlot) : Option Int × ErrSlot :=
  valueFromNumberObject (-(2 ^ 63)) (2 ^ 63 - 1) pyLongAsLongLong o e

/-- ValueFromObject for uint8_t. -/
def valueFromObjectUInt8 (o : PyObj) (e : ErrSlot) : Option Int × ErrSlot :=
  valueFromNumberObject 0 255 pyLongAsUnsignedLong o e

/-- ValueFromObject for uint16_t. -/
def valueFromObjectUInt16 (o : PyObj) (e : ErrSlot) : Option Int × ErrSlot :=
  valueFromNumberObject 0 65535 pyLongAsUnsignedLong o e

/-- ValueFromObject for uint32_t. -/
def valueFromObjectUInt32 (o : PyObj) (e : ErrSlot) : Option Int × ErrSlot :=
  valueFromNumberObject 0 (2 ^ 32 - 1) pyLongAsUnsignedLong o e

/-- ValueFromObject for uint64_t. -/
def valueFromObjectUInt64 (o : PyObj) (e : ErrSlot) : Option Int × ErrSlot :=
  valueFromNumberObject 0 (2 ^ 64 - 1) pyLongAsUnsignedLongLong o e

/-- ValueFromObject for void*: PyLong_Check then PyLong_AsVoidPtr, whose
CPython implementation accepts any integer a long long or an unsigned long
long can hold; a CPython OverflowError is then overwritten by the final
TypeError, as in the integer conversions. -/
def valueFromObjectPointer (o : PyObj) (e : ErrSlot) : Option Nat × ErrSlot :=
  match o with
  | .pyint n =>
      if -(2 ^ 63) ≤ n ∧ n < 2 ^ 64 then (some ((n % 2 ^ 64).toNat), e)
      else (none, pyErrSet .typeError (some .notInteger)
        (pyErrSet .overflowError (some .intTooLarge) e))
  | _ => (none, pyErrSet .typeError (some .notInteger) e)

/-- ValueFromObject for float: PyFloat_Check, else TypeError — a script
integer is rejected, never implicitly converted. The narrowing
static_cast to float is abstracted away on the opaque payload. -/
def valueFromObjectFloat (o : PyObj) (e : ErrSlot) : Option Nat × ErrSlot :=
  match o with
  | .pyfloat v => (some v, e)
  | _ => (none, pyErrSet .typeError (some .notFloat) e)

/-- ValueFromObject for double: PyFloat_Check, else TypeError. -/
def valueFromObjectDouble (o : PyObj) (e : ErrSlot) : Option Nat × ErrSlot :=
  match o with
  | .pyfloat v => (some v, e)
  | _ => (none, pyErrSet .typeError (some .notFloat) e)

/-- ValueFromObject for std::string: PyUnicode_Check then UTF-8 bytes
(modelled at the code-point level; surrogate-free strings assumed). -/
def valueFromObjectString (o : PyObj) (e : ErrSlot) : Option (List Nat) × ErrSlot :=
  match o with
  | .pystr cs => (some cs, e)
  | _ => (none, pyErrSet .typeError (some .notString) e)

/-- Python3LanguageModule::Vector2ValueFromObject: isinstance check against
the Vector2 class, then the x and y float attributes. -/
def vector2ValueFromObject (o : PyObj) (e : ErrSlot) : Option (Nat × Nat) × ErrSlot :=
  match o with
  | .pyvec2 x y => (some (x, y), e)
  | _ => (none, pyErrSet .typeError (some .notVector2) e)

/-- Python3LanguageModule::Vector3ValueFromObject. -/
def vector3ValueFromObject (o : PyObj) (e : ErrSlot) : Option (Nat × Nat × Nat) × ErrSlot :=
  match o with
  | .pyvec3 x y z => (some (x, y, z), e)
  | _ => (none, pyErrSet .typeError (some .notVector3) e)

/-- Python3LanguageModule::Vector4ValueFromObject. -/
def vector4ValueFromObject (o : PyObj) (e : ErrSlot) :
    Option (Nat × Nat × Nat × Nat) × ErrSlot :=
  match o with
  | .pyvec4 x y z w => (some (x, y, z, w), e)
  | _ => (none, pyErrSet .typeError (some .notVector4) e)

/-- Python3LanguageModule::Matrix4x4ValueFromObject: isinstance check, the
`elements` attribute must be a 4-list of 4-lists of floats, flattened
row-major into 16 entries. -/
def matrix4x4ValueFromObject (o : PyObj) (e : ErrSlot) : Option (List Nat) × ErrSlot :=
  match o with
  | .pymat rows =>
      if rows.length = 4 ∧ ∀ r ∈ rows, r.length = 4 then (some rows.flatten, e)
      else (none, pyErrSet .valueError (some .elementsShape) e)
  | _ => (none, pyErrSet .typeError (some .notMatrix) e)

/-- ArrayFromObject element phase: each element converted in order with the
element marshaler; the first failure aborts the whole array conversion. -/
def arrayFromObjectAux (conv : PyObj → ErrSlot → Option NV × ErrSlot) :
    List PyObj → ErrSlot → Option (List NV) × ErrSlot
  | [], e => (some [], e)
  | x :: xs, e =>
      match conv x e with
      | (some v, e1) =>
          match arrayFromObjectAux conv xs e1 with
          | (some vs, e2) => (some (v :: vs), e2)
          | (none, e2) => (none, e2)
      | (none, e1) => (none, e1)

/-- ArrayFromObject: PyList_Check, then elementwise conversion,
all-or-nothing. -/
def arrayFromObject (conv : PyObj → ErrSlot → Option NV × ErrSlot)
    (o : PyObj) (e : ErrSlot) : Option (List NV) × ErrSlot :=
  match o with
  | .pylist xs => arrayFromObjectAux conv xs e
  | _ => (none, pyErrSet .typeError (some .notList) e)

/-- Lift a typed conversion result into a tagged native value. -/
def omap {α : Type} (f : α → NV) (r : Option α × ErrSlot) : Option NV × ErrSlot :=
  (r.1.map f, r.2)

/-- The element marshaler used by the per-type CreateArray instantiations
(array element kinds only; arrays of functions or aggregates do not exist in
the tag set). -/
def elemFromObject : ValueType → PyObj → ErrSlot → Option NV × ErrSlot
  | .bool, o, e => omap NV.b (valueFromObjectBool o e)
  | .char8, o, e => omap (fun c => NV.i (Int.ofNat c)) (valueFromObjectChar8 o e)
  | .char16, o, e => omap (fun c => NV.i (Int.ofNat c)) (valueFromObjectChar16 o e)
  | .int8, o, e => omap NV.i (valueFromObjectInt8 o e)
  | .int16, o, e => omap NV.i (valueFromObjectInt16 o e)
  | .int32, o, e => omap NV.i (valueFromObjectInt32 o e)
  | .int64, o, e => omap NV.i (valueFromObjectInt64 o e)
  | .uint8, o, e => omap NV.i (valueFromObjectUInt8 o e)
  | .uint16, o, e => omap NV.i (valueFromObjectUInt16 o e)
  | .uint32, o, e => omap NV.i (valueFromObjectUInt32 o e)
  | .uint64, o, e => omap NV.i (valueFromObjectUInt64 o e)
  | .pointer, o, e => omap NV.p (valueFromObjectPointer o e)
  | .float, o, e => omap NV.f (valueFromObjectFloat o e)
  | .double, o, e => omap NV.f (valueFromObjectDouble o e)
  | .string, o, e => omap NV.s (valueFromObjectString o e)
  | _, _, e => (none, e)

/-- The element tag of an array tag, when there is one. -/
def elemTypeOf : ValueType → Option ValueType
  | .arrayBool => some .bool
  | .arrayChar8 => some .char8
  | .arrayChar16 => some .char16
  | .arrayInt8 => some .int8
  | .arrayInt16 => some .int16
  | .arrayInt32 => some .int32
  | .arrayInt64 => some .int64
  | .arrayUInt8 => some .uint8
  | .arrayUInt16 => some .uint16
  | .arrayUInt32 => some .uint32
  | .arrayUInt64 => some .uint64
  | .arrayPointer => some .pointer
  | .arrayFloat => some .float
  | .arrayDouble => some .double
  | .arrayString => some .string
  | _ => none

/-- CreateValue / CreateArray: the per-tag script-to-native conversion that
allocates a heap temporary of the tag's native representation. Covers every
tag that the push paths allocate temporaries for (Void and Function are not
handled by those switches). The error slot is threaded by the caller. -/
def createValueNV : ValueType → PyObj → ErrSlot → Option NV × ErrSlot
  | .bool, o, e => elemFromObject .bool o e
  | .char8, o, e => elemFromObject .char8 o e
  | .char16, o, e => elemFromObject .char16 o e
  | .int8, o, e => elemFromObject .int8 o e
  | .int16, o, e => elemFromObject .int16 o e
  | .int32, o, e => elemFromObject .int32 o e
  | .int64, o, e => elemFromObject .int64 o e
  | .uint8, o, e => elemFromObject .uint8 o e
  | .uint16, o, e => elemFromObject .uint16 o e
  | .uint32, o, e => elemFromObject .uint32 o e
  | .uint64, o, e => elemFromObject .uint64 o e
  | .pointer, o, e => elemFromObject .pointer o e
  | .float, o, e => elemFromObject .float o e
  | .double, o, e => elemFromObject .double o e
  | .string, o, e => elemFromObject .string o e
  | .arrayBool, o, e => omap NV.arr (arrayFromObject (elemFromObject .bool) o e)
  | .arrayChar8, o, e => omap NV.arr (arrayFromObject (elemFromObject .char8) o e)
  | .arrayChar16, o, e => omap NV.arr (arrayFromObject (elemFromObject .char16) o e)
  | .arrayInt8, o, e => omap NV.arr (arrayFromObject (elemFromObject .int8) o e)
  | .arrayInt16, o, e => omap NV.arr (arrayFromObject (elemFromObject .int16) o e)
  | .arrayInt32, o, e => omap NV.arr (arrayFromObject (elemFromObject .int32) o e)
  | .arrayInt64, o, e => omap NV.arr (arrayFromObject (elemFromObject .int64) o e)
  | .arrayUInt8, o, e => omap NV.arr (arrayFromObject (elemFromObject .uint8) o e)
  | .arrayUInt16, o, e => omap NV.arr (arrayFromObject (elemFromObject .uint16) o e)
  | .arrayUInt32, o, e => omap NV.arr (arrayFromObject (elemFromObject .uint32) o e)
  | .arrayUInt64, o, e => omap NV.arr (arrayFromObject (elemFromObject .uint64) o e)
  | .arrayPointer, o, e => omap NV.arr (arrayFromObject (elemFromObject .pointer) o e)
  | .arrayFloat, o, e => omap NV.arr (arrayFromObject (elemFromObject .float) o e)
  | .arrayDouble, o, e => omap NV.arr (arrayFromObject (elemFromObject .double) o e)
  | .arrayString, o, e => omap NV.arr (arrayFromObject (elemFromObject .string) o e)
  | .vector2, o, e => omap (fun q => NV.v2 q.1 q.2) (vector2ValueFromObject o e)
  | .vector3, o, e => omap (fun q => NV.v3 q.1 q.2.1 q.2.2) (vector3ValueFromObject o e)
  | .vector4, o, e =>
      omap (fun q => NV.v4 q.1 q.2.1 q.2.2.1 q.2.2.2) (vector4ValueFromObject o e)
  | .matrix4x4, o, e => omap NV.mat (matrix4x4ValueFromObject o e)
  | _, _, e => (none, e)

/-- CreatePyObject for char: value 0 becomes the empty string, other values
a one-character string. -/
def createPyObjectChar8 (n : Int) : PyObj :=
  if n = 0 then .pystr [] else .pystr [n.toNat]

/-- CreatePyObject for char16_t: value 0 becomes the empty string; a lone
high surrogate makes c16rtomb return 0 pending a pair, yielding an empty
string; a lone low surrogate makes c16rtomb fail, yielding a null result;
any other unit becomes a one-character string. -/
def createPyObjectChar16 (n : Int) : Option PyObj :=
  if n = 0 then some (.pystr [])
  else if 0xD800 ≤ n ∧ n ≤ 0xDBFF then some (.pystr [])
  else if 0xDC00 ≤ n ∧ n ≤ 0xDFFF then none
  else some (.pystr [n.toNat])

/-- Split a flat 16-element row-major matrix into the 4x4 nested rows the
Python-side Matrix4x4 object exposes through its `elements` attribute. -/
def chunk4 (l : List Nat) : List (List Nat) :=
  [l.take 4, (l.drop 4).take 4, (l.drop 8).take 4, l.drop 12]

/-- CreatePyObject for the scalar and string tags (array elements are always
of these kinds). A tag/value mismatch (a caller-contract violation of the
native frame) is modelled as a failed conversion. -/
def createPyObjectScalar : ValueType → NV → Option PyObj
  | .bool, .b x => some (.pybool x)
  | .char8, .i n => some (createPyObjectChar8 n)
  | .char16, .i n => createPyObjectChar16 n
  | .int8, .i n => some (.pyint n)
  | .int16, .i n => some (.pyint n)
  | .int32, .i n => some (.pyint n)
  | .int64, .i n => some (.pyint n)
  | .uint8, .i n => some (.pyint n)
  | .uint16, .i n => some (.pyint n)
  | .uint32, .i n => some (.pyint n)
  | .uint64, .i n => some (.pyint n)
  | .pointer, .p a => some (.pyint (Int.ofNat a))
  | .float, .f v => some (.pyfloat v)
  | .double, .f v => some (.pyfloat v)
  | .string, .s cs => some (.pystr cs)
  | _, _ => none

/-- The CreatePyObject / CreatePyObjectList family: native value to Python
object, per declared tag. Allocation failures of the Python runtime are not
modelled; the only marshaling failure is the unrepresentable char16_t
unit. -/
def createPyObjectOfNV : ValueType → NV → Option PyObj
  | .arrayBool, .arr vs => (vs.mapM (createPyObjectScalar .bool)).map PyObj.pylist
  | .arrayChar8, .arr vs => (vs.mapM (createPyObjectScalar .char8)).map PyObj.pylist
  | .arrayChar16, .arr vs => (vs.mapM (createPyObjectScalar .char16)).map PyObj.pylist
  | .arrayInt8, .arr vs => (vs.mapM (createPyObjectScalar .int8)).map PyObj.pylist
  | .arrayInt16, .arr vs => (vs.mapM (createPyObjectScalar .int16)).map PyObj.pylist
  | .arrayInt32, .arr vs => (vs.mapM (createPyObjectScalar .int32)).map PyObj.pylist
  | .arrayInt64, .arr vs => (vs.mapM (createPyObjectScalar .int64)).map PyObj.pylist
  | .arrayUInt8, .arr vs => (vs.mapM (createPyObjectScalar .uint8)).map PyObj.pylist
  | .arrayUInt16, .arr vs => (vs.mapM (createPyObjectScalar .uint16)).map PyObj.pylist
  | .arrayUInt32, .arr vs => (vs.mapM (createPyObjectScalar .uint32)).map PyObj.pylist
  | .arrayUInt64, .arr vs => (vs.mapM (createPyObjectScalar .uint64)).map PyObj.pylist
  | .arrayPointer, .arr vs => (vs.mapM (createPyObjectScalar .pointer)).map PyObj.pylist
  | .arrayFloat, .arr vs => (vs.mapM (createPyObjectScalar .float)).map PyObj.pylist
  | .arrayDouble, .arr vs => (vs.mapM (createPyObjectScalar .double)).map PyObj.pylist
  | .arrayString, .arr vs => (vs.mapM (createPyObjectScalar .string)).map PyObj.pylist
  | .vector2, .v2 x y => some (.pyvec2 x y)
  | .vector3, .v3 x y z => some (.pyvec3 x y z)
  | .vector4, .v4 x y z w => some (.pyvec4 x y z w)
  | .matrix4x4, .mat m => some (.pymat (chunk4 m))
  | t, v => createPyObjectScalar t v

/-- A parameter or return descriptor: tag plus the is-reference flag. The
nested prototype of function-typed descriptors is handled through the
function identity oracle and not carried here. -/
structure Property where
  type : ValueType
  ref : Bool
deriving DecidableEq, Repr

/-- A callable signature: ordered parameter descriptors plus return
descriptor. -/
structure Method where
  paramTypes : List Property
  retType : Property
deriving DecidableEq, Repr

/-- plugify ValueUtils::IsObject, modelled from the spec and pinned by this
repository's own uses: exactly the return tags for which BeginExternalCall
allocates a hidden-return temporary in the argument scope (String and every
array tag). -/
def IsObject : ValueType → Bool
  | .string | .arrayBool | .arrayChar8 | .arrayChar16
  | .arrayInt8 | .arrayInt16 | .arrayInt32 | .arrayInt64
  | .arrayUInt8 | .arrayUInt16 | .arrayUInt32 | .arrayUInt64
  | .arrayPointer | .arrayFloat | .arrayDouble | .arrayString => true
  | _ => false

/-- plugify ValueUtils::IsHiddenParam on the POSIX target, pinned by the
hidden-return cases of SetReturn / SetFallbackReturn: objects plus
Matrix4x4 (Vector3/Vector4 are hidden only on Windows). -/
def IsHiddenParam (t : ValueType) : Bool :=
  IsObject t || t == .matrix4x4

/-- Number of reference parameters of a method. -/
def refCount (m : Method) : Nat :=
  (m.paramTypes.filter fun p => p.ref).length

/-- What the inbound dispatcher does to the native return channel. -/
inductive RetAction
  | nothing
  | reg (v : NV)
  | hidden (v : NV)
  | hiddenReg (v : NV)
  | terminate

/-- SetFallbackReturn (POSIX branch): the type-correct fallback written into
the native return channel on any inbound failure. The switch lists
ArrayChar8 through ArrayDouble and ArrayString but has no ArrayBool case, so
an ArrayBool return falls into the `default: std::terminate()` branch. -/
def SetFallbackReturn : ValueType → RetAction
  | .void => .nothing
  | .bool | .char8 | .char16
  | .int8 | .int16 | .int32 | .int64
  | .uint8 | .uint16 | .uint32 | .uint64
  | .pointer | .float | .double => .reg (NV.i 0)
  | .string => .hidden (NV.s [])
  | .function => .reg (NV.p 0)
  | .arrayChar8 | .arrayChar16
  | .arrayInt8 | .arrayInt16 | .arrayInt32 | .arrayInt64
  | .arrayUInt8 | .arrayUInt16 | .arrayUInt32 | .arrayUInt64
  | .arrayPointer | .arrayFloat | .arrayDouble => .hidden (NV.arr [])
  | .arrayString => .hidden (NV.arr [])
  | .vector2 => .reg (NV.v2 0 0)
  | .vector3 => .reg (NV.v3 0 0 0)
  | .vector4 => .reg (NV.v4 0 0 0 0)
  | .matrix4x4 => .hiddenReg (NV.mat (List.replicate 16 0))
  | .arrayBool => .terminate

/-- The function identity cache as the dispatchers see it: the oracle for
GetOrCreateFunctionObject (address to callable object, null on failure) and
GetOrCreateFunctionValue (callable object to address; outer failure, inner
null for Py_None). -/
structure PyRt where
  fnObjOfAddr : Nat → Option PyObj
  fnAddrOfObj : PyObj → Option (Option Nat)

/-- SetReturn (POSIX branch): convert the primary script result into the
declared native return channel; `none` means the conversion failed and
nothing was written. -/
def SetReturn (rt : PyRt) (p : Property) (result : PyObj) (e : ErrSlot) :
    Option RetAction × ErrSlot :=
  match p.type with
  | .void => (some .nothing, e)
  | .bool =>
      match valueFromObjectBool result e with
      | (some x, e1) => (some (.reg (NV.b x)), e1)
      | (none, e1) => (none, e1)
  | .char8 =>
      match valueFromObjectChar8 result e with
      | (some c, e1) => (some (.reg (NV.i (Int.ofNat c))), e1)
      | (none, e1) => (none, e1)
  | .char16 =>
      match valueFromObjectChar16 result e with
      | (some c, e1) => (some (.reg (NV.i (Int.ofNat c))), e1)
      | (none, e1) => (none, e1)
  | .int8 =>
      match valueFromObjectInt8 result e with
      | (some n, e1) => (some (.reg (NV.i n)), e1)
      | (none, e1) => (none, e1)
  | .int16 =>
      match valueFromObjectInt16 result e with
      | (some n, e1) => (some (.reg (NV.i n)), e1)
      | (none, e1) => (none, e1)
  | .int32 =>
      match valueFromObjectInt32 result e with
      | (some n, e1) => (some (.reg (NV.i n)), e1)
      | (none, e1) => (none, e1)
  | .int64 =>
      match valueFromObjectInt64 result e with
      | (some n, e1) => (some (.reg (NV.i n)), e1)
      | (none, e1) => (none, e1)
  | .uint8 =>
      match valueFromObjectUInt8 result e with
      | (some n, e1) => (some (.reg (NV.i n)), e1)
      | (none, e1) => (none, e1)
  | .uint16 =>
      match valueFromObjectUInt16 result e with
      | (some n, e1) => (some (.reg (NV.i n)), e1)
      | (none, e1) => (none, e1)
  | .uint32 =>
      match valueFromObjectUInt32 result e with
      | (some n, e1) => (some (.reg (NV.i n)), e1)
      | (none, e1) => (none, e1)
  | .uint64 =>
      match valueFromObjectUInt64 result e with
      | (some n, e1) => (some (.reg (NV.i n)), e1)
      | (none, e1) => (none, e1)
  | .pointer =>
      match valueFromObjectPointer result e with
      | (some a, e1) => (some (.reg (NV.p a)), e1)
      | (none, e1) => (none, e1)
  | .float =>
      match valueFromObjectFloat result e with
      | (some v, e1) => (some (.reg (NV.f v)), e1)
      | (none, e1) => (none, e1)
  | .double =>
      match valueFromObjectDouble result e with
      | (some v, e1) => (some (.reg (NV.f v)), e1)
      | (none, e1) => (none, e1)
  | .function =>
      match rt.fnAddrOfObj result with
      | some a => (some (.reg (NV.p (a.getD 0))), e)
      | none => (none, pyErrSet .typeError (some .notFunction) e)
  | .string =>
      match valueFromObjectString result e with
      | (some cs, e1) => (some (.hidden (NV.s cs)), e1)
      | (none, e1) => (none, e1)
  | .vector2 =>
      match vector2ValueFromObject result e with
      | (some q, e1) => (some (.reg (NV.v2 q.1 q.2)), e1)
      | (none, e1) => (none, e1)
  | .vector3 =>
      match vector3ValueFromObject result e with
      | (some q, e1) => (some (.reg (NV.v3 q.1 q.2.1 q.2.2)), e1)
      | (none, e1) => (none, e1)
  | .vector4 =>
      match vector4ValueFromObject result e with
      | (some q, e1) => (some (.reg (NV.v4 q.1 q.2.1 q.2.2.1 q.2.2.2)), e1)
      | (none, e1) => (none, e1)
  | .matrix4x4 =>
      match matrix4x4ValueFromObject result e with
      | (some m, e1) => (some (.hiddenReg (NV.mat m)), e1)
      | (none, e1) => (none, e1)
  | t =>
      match createValueNV t result e with
      | (some v, e1) => (some (.hidden v), e1)
      | (none, e1) => (none, e1)

/-- Result of one SetRefParam write-back attempt. -/
inductive SRRes
  | ok (v : NV) (e : ErrSlot)
  | fail (e : ErrSlot)
  | die

/-- SetRefParam: convert the new script value for a reference parameter and
write it through the parameter's pointer slot. The Matrix4x4 case of the
source (module.cpp lines 857-863) is a verbatim copy of the Vector2 case: it
extracts with the Vector2 marshaler and writes a Vector2 into the slot. The
switch has no Void or Function case, so those tags hit the
`default: std::terminate()` branch. -/
def SetRefParam (p : Property) (o : PyObj) (e : ErrSlot) : SRRes :=
  match p.type with
  | .void => .die
  | .function => .die
  | .matrix4x4 =>
      match vector2ValueFromObject o e with
      | (some q, e1) => .ok (NV.v2 q.1 q.2) e1
      | (none, e1) => .fail e1
  | t =>
      match createValueNV t o e with
      | (some v, e1) => .ok v e1
      | (none, e1) => .fail e1

/-- Result of converting one native slot into a script argument. -/
inductive PRes
  | ok (o : PyObj)
  | fail
  | die

/-- ParamToObject: read a non-reference parameter slot of the declared tag
and convert it to a script value. Function slots go through the identity
cache; the switch has no Void case, so that tag hits the
`default: std::terminate()` branch. -/
def paramToObject (rt : PyRt) (t : ValueType) (v : NV) : PRes :=
  match t with
  | .void => .die
  | .function =>
      match v with
      | .p a =>
          match rt.fnObjOfAddr a with
          | some o => .ok o
          | none => .fail
      | _ => .fail
  | t =>
      match createPyObjectOfNV t v with
      | some o => .ok o
      | none => .fail

/-- ParamRefToObject: read a reference parameter through its pointer slot.
The switch has no Void and no Function case, so those tags hit the
`default: std::terminate()` branch. -/
def paramRefToObject (rt : PyRt) (t : ValueType) (v : NV) : PRes :=
  match t with
  | .void => .die
  | .function => .die
  | t =>
      match createPyObjectOfNV t v with
      | some o => .ok o
      | none => .fail

/-- Result of building the script argument tuple. -/
inductive BRes
  | ok (args : List PyObj)
  | fail
  | die

/-- Step 1 of InternalCall: build the script argument sequence from the
native parameter slots, starting at the given frame index (1 when a hidden
return slot occupies index 0). The frame holds the dereferenced value of
each slot. -/
def buildArgs (rt : PyRt) : List Property → List NV → Nat → BRes
  | [], _, _ => .ok []
  | p :: ps, frame, idx =>
      let conv := if p.ref then paramRefToObject else paramToObject
      match conv rt p.type (frame.getD idx (NV.i 0)) with
      | .die => .die
      | .fail => .fail
      | .ok o =>
          match buildArgs rt ps frame (idx + 1) with
          | .ok os => .ok (o :: os)
          | .fail => .fail
          | .die => .die

/-- Result of the reference write-back loop. -/
inductive WBRes
  | ok (writes : List (Nat × NV))
  | die

/-- Step 4 of InternalCall: for the k-th reference parameter, write tuple
element 1+k back through the parameter's slot with SetRefParam. A failed
write-back is logged (PyErr_Print clears the indicator) and that slot is
left unmodified; the loop continues. The returned list holds the (frame
index, value) pairs actually written. -/
def refWriteLoop : List Property → List PyObj → Nat → Nat → WBRes
  | [], _, _, _ => .ok []
  | p :: ps, elems, idx, k =>
      if p.ref then
        match SetRefParam p (elems.getD (1 + k) PyObj.pynone) Option.none with
        | .die => .die
        | .ok v _ =>
            match refWriteLoop ps elems (idx + 1) (k + 1) with
            | .ok ws => .ok ((idx, v) :: ws)
            | .die => .die
        | .fail _ =>
            match refWriteLoop ps elems (idx + 1) (k + 1) with
            | .ok ws => .ok ws
            | .die => .die
      else refWriteLoop ps elems (idx + 1) k

/-- Outcome of one inbound dispatch: the reference slots written and the
action taken on the native return channel (RetAction.terminate when a
missing switch case aborts the process), or an abort during argument
building. -/
inductive InboundOut
  | ret (refWrites : List (Nat × NV)) (act : RetAction)
  | die

/-- InternalCall, the inbound dispatcher: build script arguments from the
native frame, invoke the script callable (modelled as a function returning
`none` when it raises), enforce the 1+refCount tuple shape when reference
parameters exist, write reference outputs back, convert the primary return,
and on any failure populate the return channel with SetFallbackReturn.
PyErr_Print clears the error indicator on every failure path, so the
callable and the write-back steps each start with a clear indicator. -/
def InternalCall (rt : PyRt) (call : List PyObj → Option PyObj) (m : Method)
    (frame : List NV) : InboundOut :=
  match buildArgs rt m.paramTypes frame (if IsHiddenParam m.retType.type then 1 else 0) with
  | .die => .die
  | .fail => .ret [] (SetFallbackReturn m.retType.type)
  | .ok args =>
      match call args with
      | none => .ret [] (SetFallbackReturn m.retType.type)
      | some result =>
          if refCount m ≠ 0 then
            match result with
            | .pytuple elems =>
                if elems.length ≠ 1 + refCount m then
                  .ret [] (SetFallbackReturn m.retType.type)
                else
                  match refWriteLoop m.paramTypes elems
                      (if IsHiddenParam m.retType.type then 1 else 0) 0 with
                  | .die => .die
                  | .ok ws =>
                      match SetReturn rt m.retType (elems.getD 0 .pynone) Option.none with
                      | (some act, _) => .ret ws act
                      | (none, _) => .ret ws (SetFallbackReturn m.retType.type)
            | _ => .ret [] (SetFallbackReturn m.retType.type)
          else
            match SetReturn rt m.retType result Option.none with
            | (some act, _) => .ret [] act
            | (none, _) => .ret [] (SetFallbackReturn m.retType.type)

/-- What `ArgsScope::~ArgsScope` deletes a temporary recorded with each tag
as; `none` is the `default: std::terminate()` branch. The ArrayInt8 case of
the source (module.cpp line 1448) casts to `std::vector<int16_t>*`. -/
def destructorCast : ValueType → Option CppType
  | .bool => some .tbool
  | .char8 => some .tchar
  | .char16 => some .tchar16
  | .int8 => some .tint8
  | .int16 => some .tint16
  | .int32 => some .tint32
  | .int64 => some .tint64
  | .uint8 => some .tuint8
  | .uint16 => some .tuint16
  | .uint32 => some .tuint32
  | .uint64 => some .tuint64
  | .pointer => some .tuintptr
  | .float => some .tfloat
  | .double => some .tdouble
  | .string => some .tstring
  | .arrayBool => some .vecBool
  | .arrayChar8 => some .vecChar8
  | .arrayChar16 => some .vecChar16
  | .arrayInt8 => some .vecInt16
  | .arrayInt16 => some .vecInt16
  | .arrayInt32 => some .vecInt32
  | .arrayInt64 => some .vecInt64
  | .arrayUInt8 => some .vecUInt8
  | .arrayUInt16 => some .vecUInt16
  | .arrayUInt32 => some .vecUInt32
  | .arrayUInt64 => some .vecUInt64
  | .arrayPointer => some .vecUIntptr
  | .arrayFloat => some .vecFloat
  | .arrayDouble => some .vecDouble
  | .arrayString => some .vecString
  | .vector2 => some .tvector2
  | .vector3 => some .tvector3
  | .vector4 => some .tvector4
  | .matrix4x4 => some .tmatrix4x4
  | _ => none

/-- The C++ type a temporary recorded with each tag was allocated as, read
off the CreateValue / CreateArray / BeginExternalCall allocation sites;
`none` for the tags no allocation site records (Void, Function). -/
def nativeReprOf : ValueType → Option CppType
  | .bool => some .tbool
  | .char8 => some .tchar
  | .char16 => some .tchar16
  | .int8 => some .tint8
  | .int16 => some .tint16
  | .int32 => some .tint32
  | .int64 => some .tint64
  | .uint8 => some .tuint8
  | .uint16 => some .tuint16
  | .uint32 => some .tuint32
  | .uint64 => some .tuint64
  | .pointer => some .tuintptr
  | .float => some .tfloat
  | .double => some .tdouble
  | .string => some .tstring
  | .arrayBool => some .vecBool
  | .arrayChar8 => some .vecChar8
  | .arrayChar16 => some .vecChar16
  | .arrayInt8 => some .vecInt8
  | .arrayInt16 => some .vecInt16
  | .arrayInt32 => some .vecInt32
  | .arrayInt64 => some .vecInt64
  | .arrayUInt8 => some .vecUInt8
  | .arrayUInt16 => some .vecUInt16
  | .arrayUInt32 => some .vecUInt32
  | .arrayUInt64 => some .vecUInt64
  | .arrayPointer => some .vecUIntptr
  | .arrayFloat => some .vecFloat
  | .arrayDouble => some .vecDouble
  | .arrayString => some .vecString
  | .vector2 => some .tvector2
  | .vector3 => some .tvector3
  | .vector4 => some .tvector4
  | .matrix4x4 => some .tmatrix4x4
  | _ => none

/-- BeginExternalCall: when the return type is an object (String or array),
allocate the hidden-return temporary as the first entry of the argument
scope's storage; aggregate returns set up a dyncall aggregate descriptor and
record nothing in storage. -/
def beginExternalCall (m : Method) : List (ValueType × NV) :=
  if IsObject m.retType.type then
    [(m.retType.type, if m.retType.type == .string then NV.s [] else NV.arr [])]
  else []

/-- Result of pushing one outbound argument: pushed by value, pushed by
pointer to a newly recorded storage temporary, or failed. -/
inductive PushRes
  | okv (v : NV)
  | oks (cell : ValueType × NV)
  | fail

/-- PushObjectAsParam: convert a non-reference script argument and push it;
strings, arrays and aggregates go by pointer through a recorded storage
temporary, functions through the identity cache. The default branch covers
Void: it sets a TypeError and returns false. -/
def PushObjectAsParam (rt : PyRt) (t : ValueType) (o : PyObj) : PushRes :=
  match t with
  | .void => .fail
  | .function =>
      match rt.fnAddrOfObj o with
      | some a => .okv (NV.p (a.getD 0))
      | none => .fail
  | .bool | .char8 | .char16
  | .int8 | .int16 | .int32 | .int64
  | .uint8 | .uint16 | .uint32 | .uint64
  | .pointer | .float | .double =>
      match createValueNV t o Option.none with
      | (some v, _) => .okv v
      | (none, _) => .fail
  | t =>
      match createValueNV t o Option.none with
      | (some v, _) => .oks (t, v)
      | (none, _) => .fail

/-- PushObjectAsRefParam: every reference argument allocates a storage
temporary initialized from the script value and pushes its address. The
default branch covers Void and Function: TypeError, push fails. -/
def PushObjectAsRefParam (t : ValueType) (o : PyObj) : PushRes :=
  match t with
  | .void => .fail
  | .function => .fail
  | t =>
      match createValueNV t o Option.none with
      | (some v, _) => .oks (t, v)
      | (none, _) => .fail

/-- The outbound push loop: arguments in declared order; storage temporaries
are appended in push order after any hidden-return temporary. `none` when
any push fails (ExternalCall then returns before the native call). -/
def pushLoop (rt : PyRt) : List Property → List PyObj → List (ValueType × NV) →
    Option (List (ValueType × NV))
  | [], _, st => some st
  | p :: ps, os, st =>
      match (if p.ref then PushObjectAsRefParam p.type (os.headD .pynone)
             else PushObjectAsParam rt p.type (os.headD .pynone)) with
      | .fail => none
      | .okv _ => pushLoop rt ps os.tail st
      | .oks cell => pushLoop rt ps os.tail (st ++ [cell])

/-- The native callee as the outbound dispatcher observes it: it may mutate
the storage temporaries it received pointers to, and produces the raw return
value the dyncall read-back yields. -/
def NativeFn : Type :=
  List (ValueType × NV) → List (ValueType × NV) × NV

/-- Read a storage cell as a given type, as MakeExternalCall does for hidden
returns: `reinterp` marks a read through a pointer of the wrong type
(undefined behavior in the source). -/
def storageReadAsObject (t : ValueType) (st : List (ValueType × NV)) (idx : Nat) :
    Option PyObj :=
  match st.get? idx with
  | none => none
  | some cell =>
      if cell.1 = t then createPyObjectOfNV t cell.2
      else some (PyObj.reinterp t cell.1 cell.2)

/-- MakeExternalCall: perform the native call via dyncall and convert the
declared return: Void yields None, scalars convert the returned value,
String/array returns read back the hidden storage temporary at index 0,
aggregates convert the aggregate-returned value, Function wraps the returned
address through the identity cache. -/
def MakeExternalCall (rt : PyRt) (m : Method) (native : NativeFn)
    (pre : List (ValueType × NV)) : PRes × List (ValueType × NV) :=
  match native pre with
  | (post, retNV) =>
      match m.retType.type with
      | .void => (.ok .pynone, post)
      | .function =>
          match retNV with
          | .p a =>
              match rt.fnObjOfAddr a with
              | some o => (.ok o, post)
              | none => (.fail, post)
          | _ => (.fail, post)
      | t =>
          if IsObject t then
            match storageReadAsObject t post 0 with
            | some o => (.ok o, post)
            | none => (.fail, post)
          else
            match createPyObjectOfNV t retNV with
            | some o => (.ok o, post)
            | none => (.fail, post)

/-- StorageValueToObject: read the post-call value of a storage temporary at
the given index as the declared tag. The switch has no Void or Function
case (`default: std::terminate()`); an out-of-bounds index is undefined
behavior, modelled as the same abort. -/
def StorageValueToObject (t : ValueType) (st : List (ValueType × NV)) (idx : Nat) : PRes :=
  match t with
  | .void => .die
  | .function => .die
  | t =>
      match st.get? idx with
      | none => .die
      | some cell =>
          if cell.1 = t then
            match createPyObjectOfNV t cell.2 with
            | some o => .ok o
            | none => .fail
          else .ok (PyObj.reinterp t cell.1 cell.2)

/-- Result of the outbound reference read-back loop. -/
inductive RRes
  | ok (os : List PyObj)
  | fail
  | die

/-- The outbound read-back loop of ExternalCall: the storage index j starts
at 1 exactly when the return type is an object and is incremented only when
a reference parameter is emitted — non-reference parameters that also
occupy storage temporaries do not advance it (this is what the source
does). -/
def refReadLoop : List Property → List (ValueType × NV) → Nat → RRes
  | [], _, _ => .ok []
  | p :: ps, post, j =>
      if p.ref then
        match StorageValueToObject p.type post j with
        | .die => .die
        | .fail => .fail
        | .ok o =>
            match refReadLoop ps post (j + 1) with
            | .ok os => .ok (o :: os)
            | .fail => .fail
            | .die => .die
      else refReadLoop ps post j

/-- Outcome of one outbound dispatch: whether the native function was
invoked, and the value handed back to the script caller (`PRes.fail` is a
null return with the error indicator set — a script-level exception). -/
structure OutboundRes where
  invoked : Bool
  out : PRes

/-- ExternalCall, the outbound dispatcher: argument tuple check, arity
check, push loop, native call, and — when reference parameters exist — the
result sequence of primary return followed by the reference temporaries
read back from storage. Any failure before MakeExternalCall returns with
the native function never invoked. -/
def ExternalCall (rt : PyRt) (native : NativeFn) (m : Method) (argsObj : PyObj) :
    OutboundRes :=
  match argsObj with
  | .pytuple args =>
      if args.length ≠ m.paramTypes.length then ⟨false, .fail⟩
      else
        match pushLoop rt m.paramTypes args (beginExternalCall m) with
        | none => ⟨false, .fail⟩
        | some pre =>
            match MakeExternalCall rt m native pre with
            | (.fail, _) => ⟨true, .fail⟩
            | (.die, _) => ⟨true, .die⟩
            | (.ok retObj, post) =>
                if refCount m = 0 then ⟨true, .ok retObj⟩
                else
                  match refReadLoop m.paramTypes post
                      (if IsObject m.retType.type then 1 else 0) with
                  | .die => ⟨true, .die⟩
                  | .fail => ⟨true, .fail⟩
                  | .ok vals => ⟨true, .ok (.pytuple (retObj :: vals))⟩
  | _ => ⟨false, .fail⟩

/-- Pointer identity of Python objects, as the identity cache's maps key on
PyObject*: modelled for function-kind objects, the only keys the cache ever
stores. -/
def sameObject : PyObj → PyObj → Bool
  | .pyfunction i, .pyfunction j => i == j
  | .pycfunction i, .pycfunction j => i == j
  | _, _ => false

/-- The function identity cache: the two oppositely keyed maps plus a fresh
counter standing for the addresses and objects the JIT runtime hands out. -/
structure CacheState where
  externalMap : List (Nat × PyObj)
  internalMap : List (PyObj × Nat)
  fresh : Nat

/-- Python3LanguageModule::FindExternal. -/
def findExternal (st : CacheState) (funcAddr : Nat) : Option PyObj :=
  (st.externalMap.find? fun q => q.1 == funcAddr).map fun q => q.2

/-- Python3LanguageModule::FindInternal. -/
def findInternal (st : CacheState) (o : PyObj) : Option Nat :=
  (st.internalMap.find? fun q => sameObject q.1 o).map fun q => q.2

/-- Python3LanguageModule::AddToFunctionsMap: register the pair in both
maps. -/
def addToFunctionsMap (st : CacheState) (funcAddr : Nat) (o : PyObj) : CacheState :=
  ⟨(funcAddr, o) :: st.externalMap, (o, funcAddr) :: st.internalMap, st.fresh⟩

/-- Python3LanguageModule::GetOrCreateFunctionObject: return the cached
script callable for a native address, or JIT an outbound trampoline, wrap it
as a PyCFunction, register the pair in both maps and return it (trampoline
generation is modelled as always succeeding with a fresh object). -/
def getOrCreateFunctionObject (_m : Method) (funcAddr : Nat) (st : CacheState) :
    PyObj × CacheState :=
  match findExternal st funcAddr with
  | some o => (o, st)
  | none =>
      let o := PyObj.pycfunction st.fresh
      (o, addToFunctionsMap ⟨st.externalMap, st.internalMap, st.fresh + 1⟩ funcAddr o)

/-- Result of GetOrCreateFunctionValue: a native address (null for Py_None)
or a failure with the raised exception. -/
inductive FVRes
  | ok (addr : Option Nat)
  | fail (err : PyErr)

/-- Python3LanguageModule::GetOrCreateFunctionValue: Py_None maps to a null
address; then PyFunction_Check is required BEFORE the FindInternal lookup,
so only genuine Python function objects ever reach the cache lookup; on a
miss an inbound trampoline is generated and the pair registered in both
maps. -/
def getOrCreateFunctionValue (_m : Method) (o : PyObj) (st : CacheState) :
    FVRes × CacheState :=
  match o with
  | .pynone => (.ok none, st)
  | .pyfunction _ =>
      match findInternal st o with
      | some funcAddr => (.ok (some funcAddr), st)
      | none =>
          let funcAddr := st.fresh
          (.ok (some funcAddr),
            addToFunctionsMap ⟨st.externalMap, st.internalMap, st.fresh + 1⟩ funcAddr o)
  | _ => (.fail ⟨.typeError, some .notFunction⟩, st)

/-! Concrete fixtures used by the theorems below. -/

/-- An identity-cache oracle with an empty cache (both lookups miss). -/
def rt0 : PyRt := ⟨fun _ => none, fun _ => none⟩

/-- A native callee that mutates nothing and returns zero. -/
def native0 : NativeFn := fun st => (st, NV.i 0)

/-- The empty function identity cache. -/
def st0 : CacheState := ⟨[], [], 0⟩

/-- A trivial method signature for cache operations. -/
def mAny : Method := ⟨[], ⟨.void, false⟩⟩

/-- Method with one Matrix4x4 reference parameter. -/
def m2 : Method := ⟨[⟨.matrix4x4, true⟩], ⟨.void, false⟩⟩

/-- A well-formed 4x4 elements attribute. -/
def rows4 : List (List Nat) := List.replicate 4 (List.replicate 4 1)

/-- Method with no parameters returning ArrayBool. -/
def m3 : Method := ⟨[], ⟨.arrayBool, false⟩⟩

/-- Method with two Int32 reference parameters returning Int32 (the spec's
reference arity test). -/
def m5 : Method := ⟨[⟨.int32, true⟩, ⟨.int32, true⟩], ⟨.int32, false⟩⟩

/-- Method with one Int32 reference parameter returning ArrayBool. -/
def mC5 : Method := ⟨[⟨.int32, true⟩], ⟨.arrayBool, false⟩⟩

/-- Method with one Int32 parameter returning Void. -/
def m6 : Method := ⟨[⟨.int32, false⟩], ⟨.void, false⟩⟩

/-- Method with a non-reference String parameter followed by an Int32
reference parameter, returning Void. -/
def m7 : Method := ⟨[⟨.string, false⟩, ⟨.int32, true⟩], ⟨.void, false⟩⟩

/-- A native callee for m7 that writes 7 into the Int32 reference temporary
(storage index 1; index 0 holds the string temporary). -/
def native7 : NativeFn := fun pre => (pre.set 1 (.int32, NV.i 7), NV.i 0)

/-- The result-shape test InternalCall applies when reference parameters
exist: true when the result is not an exact tuple or has the wrong size. -/
def tupleCheckFails (o : PyObj) (rc : Nat) : Bool :=
  match o with
  | .pytuple xs => xs.length != 1 + rc
  | _ => true

/-- Claim C1: for every method m and native address a, if
c = getOrCreateScriptCallable(m, a) succeeds then
getOrCreateNativeAddress(m, c) succeeds and returns a. REFUTED by the code:
the wrapper c is a PyCFunction, and GetOrCreateFunctionValue requires
PyFunction_Check BEFORE consulting FindInternal, so the round trip fails
with TypeError even though AddToFunctionsMap did register (c, a) in the
internal map (second conjunct). -/
theorem c1_cache_roundtrip_rejected :
    (getOrCreateFunctionObject mAny 42 st0).1 = PyObj.pycfunction 0
    ∧ findInternal (getOrCreateFunctionObject mAny 42 st0).2 (PyObj.pycfunction 0) = some 42
    ∧ (getOrCreateFunctionValue mAny (PyObj.pycfunction 0)
        (getOrCreateFunctionObject mAny 42 st0).2).1
      = FVRes.fail ⟨.typeError, some .notFunction⟩ :=
  ⟨rfl, rfl, rfl⟩

/-- Claim C2: the inbound dispatcher writes a Matrix4x4 reference parameter
back with the Matrix4x4 value marshaler. REFUTED by the code: the Matrix4x4
case of SetRefParam is a copy of the Vector2 case, so a well-formed
Matrix4x4 result element is rejected with TypeError (Not Vector2) and the
slot is left unmodified (the dispatch run performs zero reference writes),
while a Vector2 object would be accepted and written into the matrix
slot. -/
theorem c2_matrix_ref_uses_vector2_extractor :
    SetRefParam ⟨.matrix4x4, true⟩ (PyObj.pymat rows4) Option.none
      = SRRes.fail (some ⟨.typeError, some .notVector2⟩)
    ∧ InternalCall rt0 (fun _ => some (.pytuple [.pynone, .pymat rows4])) m2
        [NV.mat (List.replicate 16 0)]
      = InboundOut.ret [] .nothing
    ∧ SetRefParam ⟨.matrix4x4, true⟩ (PyObj.pyvec2 3 4) Option.none
      = SRRes.ok (NV.v2 3 4) Option.none :=
  ⟨rfl, rfl, rfl⟩

/-- Claim C3: on any inbound failure, the native return slot is populated
with the declared type's fallback for every return type in the set. REFUTED
by the code at ArrayBool: SetFallbackReturn has no ArrayBool case, so a
failing inbound call with an ArrayBool return hits the
`default: std::terminate()` branch instead of constructing the empty-array
fallback other array types receive. -/
theorem c3_arraybool_fallback_terminates :
    SetFallbackReturn .arrayBool = RetAction.terminate
    ∧ InternalCall rt0 (fun _ => none) m3 [NV.arr []]
      = InboundOut.ret [] RetAction.terminate
    ∧ SetFallbackReturn .arrayInt32 = RetAction.hidden (NV.arr [])
    ∧ RetAction.terminate ≠ RetAction.hidden (NV.arr []) :=
  ⟨rfl, rfl, rfl, fun h => RetAction.noConfusion h⟩

/-- Claim C4: an out-of-range script integer for an Int32 slot fails with a
range error and is never truncated. PARTLY REFUTED by the code: the
conversion does reject every out-of-range value and passes in-range values
through unchanged (first conjunct), and a failed SetReturn writes nothing,
but the final exception is TypeError (Not integer) — the OverflowError set
on the overflow path is overwritten by the unconditional trailing
PyErr_SetString — so the error category the claim requires is wrong,
including at the claimed input 2^63. -/
theorem c4_int32_range_error_category :
    (∀ n : Int, valueFromObjectInt32 (.pyint n) Option.none
        = if -(2 ^ 31) ≤ n ∧ n ≤ 2 ^ 31 - 1 then (some n, Option.none)
          else (none, some ⟨.typeError, some .notInteger⟩))
    ∧ valueFromObjectInt32 (.pyint (2 ^ 63)) Option.none
        = (none, some ⟨.typeError, some .notInteger⟩)
    ∧ SetReturn rt0 ⟨.int32, false⟩ (.pyint (2 ^ 63)) Option.none
        = (none, some ⟨.typeError, some .notInteger⟩) := by
  refine ⟨?_, rfl, rfl⟩
  intro n
  by_cases h64 : -(9223372036854775808 : Int) ≤ n ∧ n < 9223372036854775808
  · by_cases h32 : -(2147483648 : Int) ≤ n ∧ n ≤ 2147483647
    · simp [valueFromObjectInt32, valueFromNumberObject, pyLongAsLong, pyErrSet, h64, h32]
    · simp [valueFromObjectInt32, valueFromNumberObject, pyLongAsLong, pyErrSet, h64, h32]
  · have h32 : ¬(-(2147483648 : Int) ≤ n ∧ n ≤ 2147483647) := by omega
    simp [valueFromObjectInt32, valueFromNumberObject, pyLongAsLong, pyErrSet, h64, h32]

/-- Counterexample to claim C5 as stated: with one Int32 reference
parameter and an ArrayBool return, a non-tuple script result is an arity
error, but the native return slot does NOT receive the declared type's
fallback value — the dispatch reaches SetFallbackReturn's
`default: std::terminate()` branch (the missing ArrayBool case), so the
process aborts with nothing written, unlike the empty-array fallback the
claim promises. -/
theorem c5_arity_fallback_counterexample :
    InternalCall rt0 (fun _ => some .pynone) mC5 [NV.arr [], NV.i 1]
      = InboundOut.ret [] RetAction.terminate
    ∧ ∀ v : NV, RetAction.terminate ≠ RetAction.hidden v :=
  ⟨rfl, fun _ h => RetAction.noConfusion h⟩

/-- Claim C5 as amended: when a method has reference parameters, a script
result that is not an exact tuple of 1 + refCount elements is an arity
error with no reference slot written, and — for every declared return type
OTHER THAN ArrayBool — the native return channel receives the declared
type's fallback value (the second conjunct: the fallback action taken is a
genuine write or the Void no-op, never the terminating default). For
ArrayBool the arity error instead aborts the process, per the
counterexample. -/
theorem c5_ref_tuple_arity_fallback_amended
    (rt : PyRt) (call : List PyObj → Option PyObj) (m : Method) (frame : List NV)
    (args : List PyObj) (result : PyObj)
    (h1 : buildArgs rt m.paramTypes frame
        (if IsHiddenParam m.retType.type then 1 else 0) = .ok args)
    (h2 : call args = some result)
    (h3 : refCount m ≠ 0)
    (h4 : tupleCheckFails result (refCount m) = true)
    (h5 : m.retType.type ≠ .arrayBool) :
    InternalCall rt call m frame = .ret [] (SetFallbackReturn m.retType.type)
    ∧ SetFallbackReturn m.retType.type ≠ RetAction.terminate := by
  constructor
  · unfold InternalCall
    rw [h1]
    dsimp only
    rw [h2]
    dsimp only
    rw [if_pos h3]
    cases result <;> simp only [tupleCheckFails, bne_iff_ne, ne_eq] at h4 <;> dsimp only <;>
      first
        | rfl
        | rw [if_pos h4]
  · revert h5
    cases m.retType.type <;> intro h5 <;>
      first
        | exact absurd rfl h5
        | exact fun h => RetAction.noConfusion h

/-- Witness for c5_ref_tuple_arity_fallback_amended: the spec's own test
case — two Int32 reference parameters, Int32 return, script result a
2-tuple (should be 3) — ends with the Int32 zero fallback in the return
register. -/
theorem c5_ref_tuple_arity_fallback_amended_witness :
    InternalCall rt0 (fun _ => some (.pytuple [.pyint 0, .pyint 1])) m5 [NV.i 1, NV.i 2]
      = .ret [] (RetAction.reg (NV.i 0))
    ∧ SetFallbackReturn ValueType.int32 ≠ RetAction.terminate :=
  c5_ref_tuple_arity_fallback_amended rt0 (fun _ => some (.pytuple [.pyint 0, .pyint 1]))
    m5 [NV.i 1, NV.i 2] [.pyint 1, .pyint 2] (.pytuple [.pyint 0, .pyint 1])
    rfl rfl (by decide) (by decide) (by decide)

/-- Claim C6: an outbound call whose argument tuple has the wrong length, or
any of whose argument conversions/pushes fails, raises a script-level
exception and never invokes the native function. CONFIRMED: every such path
returns a null result with the error indicator set before MakeExternalCall
runs. -/
theorem c6_outbound_marshal_failure_blocks_native
    (rt : PyRt) (native : NativeFn) (m : Method) (argsObj : PyObj)
    (h : (∀ xs, argsObj ≠ .pytuple xs)
      ∨ (∃ xs, argsObj = .pytuple xs ∧ xs.length ≠ m.paramTypes.length)
      ∨ (∃ xs, argsObj = .pytuple xs ∧ xs.length = m.paramTypes.length
          ∧ pushLoop rt m.paramTypes xs (beginExternalCall m) = none)) :
    ExternalCall rt native m argsObj = ⟨false, .fail⟩ := by
  rcases h with h | ⟨xs, h1, hlen⟩ | ⟨xs, h1, hlen, hpush⟩
  · cases argsObj <;> first | rfl | exact absurd rfl (h _)
  · subst h1
    unfold ExternalCall
    dsimp only
    rw [if_pos hlen]
  · subst h1
    unfold ExternalCall
    dsimp only
    rw [if_neg (by omega : ¬xs.length ≠ m.paramTypes.length), hpush]

/-- Witness for c6_outbound_marshal_failure_blocks_native: calling a
one-parameter method with an empty argument tuple fails without invoking
the native function. -/
theorem c6_outbound_marshal_failure_blocks_native_witness :
    ExternalCall rt0 native0 m6 (.pytuple []) = ⟨false, PRes.fail⟩ :=
  c6_outbound_marshal_failure_blocks_native rt0 native0 m6 (.pytuple [])
    (Or.inr (Or.inl ⟨[], rfl, by decide⟩))

/-- Claim C7: after a completed outbound call with reference parameters, the
result sequence holds the post-call values of each reference temporary,
including when non-reference string/array/aggregate parameters also occupy
call-scope temporaries. REFUTED by the code: the read-back index skips only
the hidden-return temporary and earlier reference parameters, so with a
non-reference String before an Int32 reference the dispatcher reads storage
slot 0 — the string temporary, reinterpreted as int32 — instead of the
reference temporary holding the callee-written 7. -/
theorem c7_ref_readback_wrong_slot :
    ExternalCall rt0 native7 m7 (.pytuple [.pystr [104, 105], .pyint 5])
      = ⟨true, .ok (.pytuple [.pynone, .reinterp .int32 .string (NV.s [104, 105])])⟩
    ∧ PyObj.reinterp .int32 .string (NV.s [104, 105]) ≠ PyObj.pyint 7 :=
  ⟨rfl, fun h => PyObj.noConfusion h⟩

/-- Claim C8: single-character decoding maps the empty string to 0 and a
one-character ASCII string to its code unit, and fails on longer or
unrepresentable strings with an encoding error. PARTLY REFUTED by the code:
the value mapping holds (first two conjuncts), and the bad inputs do fail,
but the ValueError the code sets on those paths falls through to the final
PyErr_SetString, so the observed exception is TypeError (Not string), not
an encoding error — for both the two-character Char8 input and the lone
surrogate Char16 input. -/
theorem c8_char_decoding_error_category :
    valueFromObjectChar8 (.pystr []) Option.none = (some 0, Option.none)
    ∧ valueFromObjectChar8 (.pystr [65]) Option.none = (some 65, Option.none)
    ∧ valueFromObjectChar8 (.pystr [65, 66]) Option.none
        = (none, some ⟨.typeError, some .notString⟩)
    ∧ valueFromObjectChar16 (.pystr [0xD800]) Option.none
        = (none, some ⟨.typeError, some .notString⟩) :=
  ⟨rfl, by decide, by decide, by decide⟩

/-- Claim C9: the argument scope destructor frees every recorded temporary
as a pointer to the recorded tag's native representation. REFUTED by the
code at ArrayInt8: the destructor deletes an ArrayInt8 temporary as
`std::vector<int16_t>*` while it was allocated as `std::vector<int8_t>`;
every other recordable tag is freed as the type it was allocated as (last
conjunct). -/
theorem c9_scope_destructor_tag_casts :
    destructorCast .arrayInt8 = some CppType.vecInt16
    ∧ nativeReprOf .arrayInt8 = some CppType.vecInt8
    ∧ CppType.vecInt16 ≠ CppType.vecInt8
    ∧ ∀ t : ValueType, t = .arrayInt8 ∨ destructorCast t = nativeReprOf t := by
  refine ⟨rfl, rfl, by decide, ?_⟩
  intro t
  cases t <;> simp [destructorCast, nativeReprOf]

/-- Claim C10: Float and Double conversions succeed exactly on script float
objects; a script integer (or any other non-float value) is rejected with a
type error, never implicitly converted. CONFIRMED. -/
theorem c10_float_double_require_float_object :
    (∀ o e, ((valueFromObjectFloat o e).1.isSome = true ↔ ∃ v, o = PyObj.pyfloat v))
    ∧ (∀ o e, ((valueFromObjectDouble o e).1.isSome = true ↔ ∃ v, o = PyObj.pyfloat v))
    ∧ (∀ n e, valueFromObjectFloat (.pyint n) e
        = (none, some ⟨.typeError, some .notFloat⟩))
    ∧ (∀ n e, valueFromObjectDouble (.pyint n) e
        = (none, some ⟨.typeError, some .notFloat⟩)) := by
  refine ⟨?_, ?_, fun n e => rfl, fun n e => rfl⟩
  · intro o e
    cases o <;> simp [valueFromObjectFloat]
  · intro o e
    cases o <;> simp [valueFromObjectDouble]

end Py3
